import Mathlib

/-!
Verification of the game-analytics-ai repository.

The repository's `src/src/App.tsx` holds the React dashboard (upload handling,
theme toggling, chatbot, and static mock content) together with an embedded
README describing the Python analytics pipeline (`data_processor.py`,
`analytics_engine.py`, `ml_models.py`); those pipeline sources are not present,
so the pipeline components (Schema Normalizer, Event Store, Metrics Engine,
Segmentation Engine, Anomaly Detector) are modelled from the specification and
from the embedded README, as marked in each doc comment.  The UI handlers are
embedded directly from `App.tsx`.
-/

namespace GameAnalytics

/-! ## UI data model, from `src/src/App.tsx` -/

/-- The two theme values of `type ThemeType = 'dark' | 'light'` (App.tsx:18). -/
inductive Theme where
  | dark
  | light
deriving DecidableEq, Repr

/-- The handler `toggleTheme` (App.tsx:110-112):
`setTheme(prev => prev === 'dark' ? 'light' : 'dark')`. -/
def toggleTheme : Theme → Theme
  | Theme.dark => Theme.light
  | Theme.light => Theme.dark

/-- A selected file as seen by `handleFileSelect`: its `name` and MIME `type`. -/
structure JsFile where
  name : String
  mimeType : String
deriving DecidableEq, Repr

/-- The `UploadState` interface (App.tsx:10-15). -/
structure UploadState where
  file : Option JsFile
  uploading : Bool
  uploaded : Bool
  error : Option String
deriving DecidableEq, Repr

/-- The `validTypes` array of accepted MIME types (App.tsx:37-41). -/
def validTypes : List String :=
  ["application/vnd.openxmlformats-officedocument.spreadsheetml.sheet",
   "application/vnd.ms-excel",
   "text/csv"]

/-- The regex test `file.name.match(/\.(xlsx|xls|csv)$/i)` (App.tsx:43): the
name, case-insensitively, ends in `.xlsx`, `.xls`, or `.csv` (carried out on
the lowercased character list). -/
def hasSpreadsheetExt (name : String) : Bool :=
  let n := name.data.map Char.toLower
  List.isSuffixOf ".xlsx".data n || List.isSuffixOf ".xls".data n ||
    List.isSuffixOf ".csv".data n

/-- The error message set on an invalid selection (App.tsx:48). -/
def invalidFileMessage : String :=
  "Please upload an Excel (.xlsx, .xls) or CSV file"

/-- The handler `handleFileSelect` (App.tsx:34-60): with no file the state is untouched;
with a file failing both the MIME-type check and the extension check the state
becomes the error state; otherwise the file is stored with no error. -/
def handleFileSelect (selected : Option JsFile) (prev : UploadState) : UploadState :=
  match selected with
  | none => prev
  | some f =>
    if !(validTypes.contains f.mimeType) && !(hasSpreadsheetExt f.name) then
      { file := none, uploading := false, uploaded := false,
        error := some invalidFileMessage }
    else
      { file := some f, uploading := false, uploaded := false, error := none }

/-! ## Chatbot state, from `ChatbotPage` (App.tsx:831-960) -/

/-- A chat message's `type` field: `'user'` or `'ai'`. -/
inductive MsgType where
  | user
  | ai
deriving DecidableEq, Repr

/-- One entry of the `messages` array: `{ type, content }`. -/
structure ChatMessage where
  mtype : MsgType
  content : String
deriving DecidableEq, Repr

/-- The `ChatbotPage` state: `messages`, `inputMessage`, `isTyping`
(App.tsx:832-839). -/
structure ChatState where
  messages : List ChatMessage
  inputMessage : String
  isTyping : Bool
deriving DecidableEq, Repr

/-- The simulated AI reply template (App.tsx:870). -/
def aiReply (userMessage : String) : String :=
  "Based on your data analysis, here are insights about \"" ++ userMessage ++
  "\": This is a simulated response. In the full implementation, this would connect to the Perplexity API to provide real AI-generated insights based on your gaming analytics data."

/-- JavaScript's `String.prototype.trim`: strip leading and trailing
whitespace (carried out on the character list). -/
def jsTrim (s : String) : String :=
  ⟨((s.data.dropWhile Char.isWhitespace).reverse.dropWhile Char.isWhitespace).reverse⟩

/-- The handler `handleSendMessage` (App.tsx:857-873), immediate effect: if the trimmed
input is empty it returns without touching any state; otherwise it clears the
input, appends the user message and sets `isTyping`. -/
def handleSendMessage (s : ChatState) : ChatState :=
  if jsTrim s.inputMessage = "" then s
  else
    { messages := s.messages ++ [⟨MsgType.user, s.inputMessage⟩],
      inputMessage := "",
      isTyping := true }

/-- The `setTimeout` callback of `handleSendMessage` (App.tsx:866-872): clears
`isTyping` and appends the simulated AI reply. -/
def aiTimeout (userMessage : String) (s : ChatState) : ChatState :=
  { s with isTyping := false,
           messages := s.messages ++ [⟨MsgType.ai, aiReply userMessage⟩] }

/-- The whole send interaction: the immediate effect of `handleSendMessage`
followed, when a message was actually sent, by the timeout callback. -/
def sendMessageFlow (s : ChatState) : ChatState :=
  if jsTrim s.inputMessage = "" then s
  else aiTimeout s.inputMessage (handleSendMessage s)

/-! ## Funnel computation

Modelled from the spec: the Metrics Engine's funnel
(`analytics_engine.py` is absent from src/) "computes, per step, the count of
users who satisfied all preceding steps and the current step, in order" with
"strict ordered satisfaction required". -/

/-- How many leading steps of `steps` a user's ordered event list satisfies in
strict order: the next step counts only once every earlier step was matched by
an earlier event. -/
def reachedSteps : List ℕ → List ℕ → ℕ
  | [], _ => 0
  | _ :: _, [] => 0
  | s :: ss, e :: es =>
      if s = e then 1 + reachedSteps ss es else reachedSteps (s :: ss) es

/-- Modelled from the spec: per-step user counts of the funnel — for step `i`
(0-based), the number of users whose events satisfy steps `0..i` in strict
order. -/
def funnelCounts (steps : List ℕ) (users : List (List ℕ)) : List ℕ :=
  (List.range steps.length).map (fun i => users.countP (fun u => i + 1 ≤ reachedSteps steps u))

/-- The hard-coded funnel user counts rendered by `AnalyticsPage`
(App.tsx:652-655): App Install 10000, Tutorial Complete 8500, First
Purchase 2550, Second Purchase 1275. -/
def conversionFunnelUsers : List ℕ := [10000, 8500, 2550, 1275]

/-! ## Timestamp normalization

The Schema Normalizer's implementation (`data_processor.py`) is absent from
src/.  The repository's embedded README (App.tsx:1107-1108, "Data Cleaning")
documents it as "Timestamp normalization to IST, data type conversion", so the
conversion target is modelled from that README; everything else follows the
spec's words. -/

/-- A parsed source timestamp: the clock reading in seconds together with the
source timezone's offset from UTC in minutes. -/
structure RawTimestamp where
  localSeconds : ℤ
  offsetMinutes : ℤ
deriving DecidableEq, Repr

/-- The absolute instant a timestamp denotes, as seconds since the epoch in
UTC. -/
def utcInstant (t : RawTimestamp) : ℤ :=
  t.localSeconds - t.offsetMinutes * 60

/-- Indian Standard Time is UTC+05:30, i.e. 330 minutes ahead of UTC. -/
def istOffsetMinutes : ℤ := 330

/-- Modelled from the spec and the embedded README ("Timestamp normalization to
IST"): re-express a parsed source timestamp in the normalizer's target
timezone, IST. -/
def normalizeTimestamp (t : RawTimestamp) : RawTimestamp :=
  { localSeconds := utcInstant t + istOffsetMinutes * 60,
    offsetMinutes := istOffsetMinutes }

/-- A timestamp is expressed as a UTC instant when its offset is zero, so its
clock reading is the instant itself. -/
def isUtcExpressed (t : RawTimestamp) : Bool :=
  t.offsetMinutes = 0

/-! ## Schema Normalizer row handling

Modelled from the spec (`data_processor.py` is absent from src/): timestamps
are parsed via a list of accepted formats; a row whose timestamp no format
parses is dropped with a logged count, unless more than 50% of rows fail, in
which case normalization fails with `DataQualityError`. -/

/-- A raw tabular row after column resolution: the required fields, with the
timestamp still textual. -/
structure RawRow where
  userId : String
  eventName : String
  timestampText : String
deriving DecidableEq, Repr

/-- Modelled from the spec: parse a timestamp text with a list of accepted
formats, taking the first format that succeeds. -/
def parseTimestampWith (formats : List (String → Option RawTimestamp))
    (text : String) : Option RawTimestamp :=
  match formats with
  | [] => none
  | f :: fs =>
    match f text with
    | some t => some t
    | none => parseTimestampWith fs text

/-- A normalized Event row: identity plus the normalized timestamp. -/
structure NormEvent where
  userId : String
  eventName : String
  timestamp : RawTimestamp
deriving DecidableEq, Repr

/-- The normalization report: total rows seen and rows dropped for unparsable
timestamps. -/
structure NormReport where
  totalRows : ℕ
  droppedRows : ℕ
deriving DecidableEq, Repr

/-- The Schema Normalizer's fatal errors. -/
inductive NormError where
  | dataQualityError
deriving DecidableEq, Repr

/-- A successful normalization: the frozen Event sequence plus its report. -/
structure NormResult where
  events : List NormEvent
  report : NormReport
deriving DecidableEq, Repr

/-- The number of rows whose timestamp no accepted format parses. -/
def unparsableCount (formats : List (String → Option RawTimestamp))
    (rows : List RawRow) : ℕ :=
  rows.countP (fun r => (parseTimestampWith formats r.timestampText).isNone)

/-- Modelled from the spec: normalize a raw dataset.  Rows with unparsable
timestamps are dropped and counted; if more than 50% of rows are unparsable
the whole normalization fails with `DataQualityError`; otherwise the surviving
rows become normalized Events (timestamps re-expressed by
`normalizeTimestamp`). -/
def normalize (formats : List (String → Option RawTimestamp))
    (rows : List RawRow) : Except NormError NormResult :=
  let bad := unparsableCount formats rows
  if 2 * bad > rows.length then
    Except.error NormError.dataQualityError
  else
    Except.ok
      { events := rows.filterMap (fun r =>
          (parseTimestampWith formats r.timestampText).map (fun t =>
            { userId := r.userId, eventName := r.eventName,
              timestamp := normalizeTimestamp t })),
        report := { totalRows := rows.length, droppedRows := bad } }

/-- A sample accepted format for concrete runs: the text is a non-empty string
of decimal digits giving seconds since the epoch, read as a UTC clock
reading. -/
def epochFormat (text : String) : Option RawTimestamp :=
  if text.data ≠ [] ∧ text.data.all Char.isDigit then
    some { localSeconds :=
             ((text.data.foldl (fun n c => 10 * n + (c.toNat - 48)) 0 : ℕ) : ℤ),
           offsetMinutes := 0 }
  else none

/-! ## Event Store and Metrics Engine

Modelled from the spec (`analytics_engine.py` is absent from src/): the Event
Store is an immutable sequence of normalized events; metrics are pure
functions over the store plus a window filter, each result carrying a status
so consumers can tell "zero" from "not computed". -/

/-- The canonical `event_name` enum of the Event data model. -/
inductive EventName where
  | sessionStart
  | purchase
  | levelStart
  | levelComplete
  | login
  | logout
  | custom
deriving DecidableEq, Repr

/-- One normalized user action: identity, kind, day bucket of its timestamp,
and revenue (zero for non-monetary events). -/
structure Event where
  userId : ℕ
  eventName : EventName
  day : ℤ
  revenue : ℚ
deriving DecidableEq, Repr

/-- The Event Store: an ordered-by-arrival sequence of Events, immutable once
built. -/
structure EventStore where
  events : List Event
deriving DecidableEq, Repr

/-- Construction errors for the Event Store.  Construction never actually
fails: an empty sequence yields an explicitly-empty store. -/
inductive BuildError where
  | invalid
deriving DecidableEq, Repr

/-- Modelled from the spec: build an Event Store from a normalized Event
sequence.  An empty sequence is a normal case and yields a valid empty store,
never an error. -/
def buildStore (evs : List Event) : Except BuildError EventStore :=
  Except.ok { events := evs }

/-- A window filter over day buckets: closed interval `[lo, hi]`. -/
structure Window where
  lo : ℤ
  hi : ℤ
deriving DecidableEq, Repr

/-- Whether an event falls in the window. -/
def inWindow (w : Window) (e : Event) : Bool :=
  w.lo ≤ e.day && e.day ≤ w.hi

/-- The accessor `events_in_range`: the events of the store inside the window. -/
def eventsInRange (store : EventStore) (w : Window) : List Event :=
  store.events.filter (inWindow w)

/-- Total revenue in the window: the sum of the revenue of every event in the
window (non-monetary events carry zero). -/
def totalRevenue (store : EventStore) (w : Window) : ℚ :=
  ((eventsInRange store w).map (fun e => e.revenue)).sum

/-- The sum of purchase-event revenue in the window. -/
def purchaseRevenue (store : EventStore) (w : Window) : ℚ :=
  (((eventsInRange store w).filter (fun e => e.eventName = EventName.purchase)).map
    (fun e => e.revenue)).sum

/-- The distinct paying users of the window: users with at least one purchase
event with `revenue > 0` there. -/
def payingUsers (store : EventStore) (w : Window) : List ℕ :=
  (((eventsInRange store w).filter (fun e =>
      e.eventName = EventName.purchase && 0 < e.revenue)).map
    (fun e => e.userId)).dedup

/-- The number of distinct paying users in the window. -/
def payingUserCount (store : EventStore) (w : Window) : ℕ :=
  (payingUsers store w).length

/-- The distinct active users of the window (any event counts as activity for
this model). -/
def activeUsers (store : EventStore) (w : Window) : List ℕ :=
  ((eventsInRange store w).map (fun e => e.userId)).dedup

/-- Modelled from the spec: ARPPU = total revenue in window ÷ distinct paying
users in window, reported as `none` (null) — never NaN, never zero — when the
paying-user count is 0. -/
def arppu (store : EventStore) (w : Window) : Option ℚ :=
  let n := payingUserCount store w
  if n = 0 then none else some (totalRevenue store w / (n : ℚ))

/-- The status carried by every returned insight. -/
inductive Status where
  | ok
  | degraded
  | unavailable
deriving DecidableEq, Repr

/-- A metric value together with its status. -/
structure MetricResult where
  value : Option ℚ
  status : Status
deriving DecidableEq, Repr

/-- Modelled from the spec: the status of metrics computed over a store — an
empty store yields `unavailable`, a populated one `ok`. -/
def storeStatus (store : EventStore) : Status :=
  if store.events.isEmpty then Status.unavailable else Status.ok

/-- Modelled from the spec: the ARPPU insight with its status. -/
def arppuInsight (store : EventStore) (w : Window) : MetricResult :=
  { value := arppu store w, status := storeStatus store }

/-- Modelled from the spec: the active-user-count insight with its status. -/
def activeUsersInsight (store : EventStore) (w : Window) : MetricResult :=
  { value := some ((activeUsers store w).length : ℚ), status := storeStatus store }

/-- Modelled from the spec: the total-revenue insight with its status. -/
def revenueInsight (store : EventStore) (w : Window) : MetricResult :=
  { value := some (totalRevenue store w), status := storeStatus store }

/-- Analytics-stage errors degrade gracefully; computing the insight bundle
never raises. -/
inductive MetricError where
  | failure
deriving DecidableEq, Repr

/-- Modelled from the spec: the downstream insight bundle over a store and
window, as an `Except` to make "no exception raised" explicit. -/
def computeInsights (store : EventStore) (w : Window) :
    Except MetricError (MetricResult × MetricResult × MetricResult) :=
  Except.ok (arppuInsight store w, activeUsersInsight store w, revenueInsight store w)

/-! ## Segmentation Engine

Modelled from the spec (`ml_models.py` is absent from src/): Lloyd's-style
centroid-based clustering of per-user feature vectors over ℚ, with
deterministic seeded centroid initialization, nearest-centroid assignment,
centroid recomputation as assignment means, and a hard iteration cap. -/

/-- The deterministic pseudo-random generator used for seeded centroid
initialization: a linear congruential step. -/
def lcgNext (s : ℕ) : ℕ :=
  (1103515245 * s + 12345) % 2147483648

/-- Squared Euclidean distance between two feature vectors (kept squared to
stay in ℚ; the nearest centroid is the same under the square). -/
def sqDist (a b : List ℚ) : ℚ :=
  ((a.zip b).map (fun p => (p.1 - p.2) * (p.1 - p.2))).sum

/-- The index of the nearest centroid (first one on ties). -/
def nearestCentroid (cs : List (List ℚ)) (x : List ℚ) : ℕ :=
  match cs with
  | [] => 0
  | c :: rest =>
    let r := (rest.foldl
      (fun (acc : ℕ × ℕ × ℚ) (c2 : List ℚ) =>
        let d2 := sqDist x c2
        if d2 < acc.2.2 then (acc.1 + 1, acc.1 + 1, d2) else (acc.1 + 1, acc.2.1, acc.2.2))
      (0, 0, sqDist x c))
    r.2.1

/-- Seeded deterministic initialization: pick `k` rows of the feature matrix
at indices drawn from the linear congruential generator. -/
def initCentroids (k : ℕ) (seed : ℕ) (points : List (List ℚ)) : List (List ℚ) :=
  let n := points.length
  (List.range k).foldl
    (fun (acc : List (List ℚ) × ℕ) _ =>
      let s := lcgNext acc.2
      (acc.1 ++ [points.getD (s % n) []], s))
    ([], seed) |>.1

/-- Assign every point to its nearest centroid. -/
def assignAll (cs : List (List ℚ)) (points : List (List ℚ)) : List ℕ :=
  points.map (nearestCentroid cs)

/-- The mean of the points assigned to cluster `j`, or the old centroid when
the cluster is empty. -/
def clusterMean (points : List (List ℚ)) (labels : List ℕ) (j : ℕ)
    (old : List ℚ) : List ℚ :=
  let mine := ((points.zip labels).filter (fun p => p.2 = j)).map (fun p => p.1)
  match mine with
  | [] => old
  | _ =>
    let n : ℚ := (mine.length : ℚ)
    (List.range old.length).map (fun d =>
      ((mine.map (fun v => v.getD d 0)).sum) / n)

/-- One Lloyd iteration: recompute every centroid as its cluster's mean. -/
def updateCentroids (points : List (List ℚ)) (cs : List (List ℚ))
    (labels : List ℕ) : List (List ℚ) :=
  (List.range cs.length).map (fun j => clusterMean points labels j (cs.getD j []))

/-- Iterate assignment/update until assignments stop changing or the fuel
(iteration cap) runs out — never unboundedly. -/
def lloydLoop (points : List (List ℚ)) : ℕ → List (List ℚ) → List ℕ
  | 0, cs => assignAll cs points
  | fuel + 1, cs =>
    let labels := assignAll cs points
    let cs2 := updateCentroids points cs labels
    let labels2 := assignAll cs2 points
    if labels2 = labels then labels else lloydLoop points fuel cs2

/-- Modelled from the spec: the Segmentation Engine's clustering — seeded
deterministic initialization, then bounded Lloyd iteration; returns one
cluster label per user, in the feature matrix's row order. -/
def kmeansLabels (k maxIter : ℕ) (seed : ℕ) (features : List (List ℚ)) : List ℕ :=
  lloydLoop features maxIter (initCentroids k seed features)

/-! ## Anomaly Detector

Modelled from the spec (`ml_models.py` is absent from src/): a point of a
Metric Series is anomalous when its deviation from the rolling mean of the
trailing window (excluding the point itself) exceeds `k` rolling standard
deviations; points without a full trailing window are never flagged.  The
comparison is carried out on squares, `(x - mean)² · n > k² · Σ(hᵢ - mean)²`,
which is equivalent to `|x - mean| > k·σ` for `k ≥ 0` and keeps the model in
ℚ. -/

/-- The mean of a list of rationals (0 on the empty list). -/
def listMean (l : List ℚ) : ℚ :=
  if l.length = 0 then 0 else l.sum / (l.length : ℚ)

/-- The sum of squared deviations from the mean. -/
def sqDevSum (l : List ℚ) : ℚ :=
  (l.map (fun x => (x - listMean l) * (x - listMean l))).sum

/-- Whether the point at index `i` of the series deviates beyond `k` rolling
standard deviations of its trailing `window` points. -/
def deviates (series : List ℚ) (window : ℕ) (k : ℚ) (i : ℕ) : Bool :=
  let hist := (series.take i).drop (i - window)
  let x := series.getD i 0
  let m := listMean hist
  (x - m) * (x - m) * (window : ℚ) > k * k * sqDevSum hist

/-- Modelled from the spec: the indices the Anomaly Detector flags — a point
is tested only once it has a full trailing window of history, and flagged when
it deviates beyond `k` rolling standard deviations. -/
def anomalyFlags (series : List ℚ) (window : ℕ) (k : ℚ) : List ℕ :=
  (List.range series.length).filter (fun i =>
    if i < window then false else deviates series window k i)

/-! ## Concrete sample data for witnesses -/

/-- The spec's §8 scenario store: 3 users, one with purchase events totaling
$500, two with zero purchases. -/
def sampleStore : EventStore :=
  ⟨[⟨1, EventName.purchase, 0, 250⟩, ⟨1, EventName.purchase, 1, 250⟩,
    ⟨2, EventName.login, 0, 0⟩, ⟨3, EventName.login, 0, 0⟩]⟩

/-- An all-time window covering every day bucket of the sample data. -/
def allTimeWindow : Window := ⟨-1000000, 1000000⟩

/-- One raw row with a parsable timestamp. -/
def sampleRows : List RawRow := [⟨"u1", "login", "100"⟩]

/-- The spec's §8 scenario dataset: 5 rows, 3 of them (60%) with unparsable
timestamps. -/
def badRows : List RawRow :=
  [⟨"u1", "login", "x"⟩, ⟨"u2", "login", "y"⟩, ⟨"u3", "login", "z"⟩,
   ⟨"u4", "login", "10"⟩, ⟨"u5", "login", "20"⟩]

/-! ## Helper lemmas -/

lemma getD_map_range (n : ℕ) (f : ℕ → ℕ) (i : ℕ) :
    ((List.range n).map f).getD i 0 = if i < n then f i else 0 := by
  by_cases h : i < n
  · simp [List.getD_eq_getElem?_getD, List.getElem?_map, List.getElem?_range h, h]
  · rw [if_neg h, List.getD_eq_getElem?_getD, List.getElem?_eq_none] <;>
      simp [Nat.le_of_not_lt h]

lemma lloydLoop_length (points : List (List ℚ)) :
    ∀ fuel cs, (lloydLoop points fuel cs).length = points.length := by
  intro fuel
  induction fuel with
  | zero => intro cs; simp [lloydLoop, assignAll]
  | succ n ih =>
    intro cs
    rw [lloydLoop]
    split
    · simp [assignAll]
    · exact ih _

/-! ## Claim theorems -/

/-- C1: For every Event Store and window filter, ARPPU equals total revenue in
the window divided by the count of distinct paying users in the window (users
with at least one purchase event with revenue > 0); it is reported as null
(`none`, never NaN, never zero) exactly when the paying-user count is 0; and
purchase revenue in the window is non-negative for valid event sequences. -/
theorem arppu_null_iff_no_payers (store : EventStore) (w : Window)
    (hrev : ∀ e ∈ store.events, 0 ≤ e.revenue) :
    0 ≤ purchaseRevenue store w ∧
    (arppu store w = none ↔ payingUserCount store w = 0) ∧
    (payingUserCount store w ≠ 0 →
      arppu store w = some (totalRevenue store w / (payingUserCount store w : ℚ))) := by
  refine ⟨?_, ?_, ?_⟩
  · apply List.sum_nonneg
    intro x hx
    simp only [purchaseRevenue, eventsInRange, List.mem_map, List.mem_filter] at hx
    obtain ⟨e, ⟨⟨he, _⟩, _⟩, rfl⟩ := hx
    exact hrev e he
  · unfold arppu
    by_cases h : payingUserCount store w = 0 <;> simp [h]
  · intro h
    unfold arppu
    simp [h]

/-- C1 witness: the spec's §8 scenario — ARPPU of the sample store over the
all-time window is $500. -/
theorem arppu_null_iff_no_payers_witness :
    arppu sampleStore allTimeWindow =
      some (totalRevenue sampleStore allTimeWindow /
        (payingUserCount sampleStore allTimeWindow : ℚ)) ∧
    arppu sampleStore allTimeWindow = some 500 := by
  have h := (arppu_null_iff_no_payers sampleStore allTimeWindow (by decide)).2.2
    (by decide)
  refine ⟨h, ?_⟩
  have hc : payingUserCount sampleStore allTimeWindow = 1 := by decide
  have ht : totalRevenue sampleStore allTimeWindow = 500 := by
    norm_num [totalRevenue, eventsInRange, inWindow, sampleStore, allTimeWindow]
  rw [h, hc, ht]
  norm_num

/-- C2: constructing an Event Store from an empty normalized Event sequence
succeeds with a valid explicitly-empty store, and the downstream insight
bundle over it returns null/zero values with status `unavailable`, with no
exception raised (the computation is `Except.ok`). -/
theorem empty_store_metrics_unavailable (w : Window) :
    buildStore [] = Except.ok ⟨[]⟩ ∧
    computeInsights ⟨[]⟩ w =
      Except.ok (⟨none, Status.unavailable⟩, ⟨some 0, Status.unavailable⟩,
        ⟨some 0, Status.unavailable⟩) := by
  constructor
  · rfl
  · simp [computeInsights, arppuInsight, activeUsersInsight, revenueInsight,
      arppu, payingUserCount, payingUsers, activeUsers, totalRevenue,
      eventsInRange, storeStatus]

/-- C3 counterexample: the normalizer's timestamp conversion does not express
timestamps as UTC instants — normalizing the UTC timestamp 0 yields a clock
reading of 19800 seconds tagged with the IST offset, not the UTC instant 0. -/
theorem normalize_timestamp_not_utc :
    isUtcExpressed (normalizeTimestamp ⟨0, 0⟩) = false ∧
    (normalizeTimestamp ⟨0, 0⟩).localSeconds ≠ utcInstant ⟨0, 0⟩ := by
  decide

/-- C3 amended: for every row accepted by the normalizer, the resulting
Event's timestamp is expressed in IST (UTC+05:30) — the normalization target
documented by the repository's embedded README — not as a UTC instant; the
underlying absolute instant is preserved by the conversion. -/
theorem normalize_expresses_ist (formats : List (String → Option RawTimestamp))
    (rows : List RawRow) (res : NormResult)
    (h : normalize formats rows = Except.ok res) :
    (∀ e ∈ res.events, isUtcExpressed e.timestamp = false ∧
      e.timestamp.offsetMinutes = istOffsetMinutes) ∧
    (∀ t : RawTimestamp, utcInstant (normalizeTimestamp t) = utcInstant t) := by
  constructor
  · intro e he
    have hev : res.events = rows.filterMap (fun r =>
        (parseTimestampWith formats r.timestampText).map (fun t =>
          ({ userId := r.userId, eventName := r.eventName,
             timestamp := normalizeTimestamp t } : NormEvent))) := by
      unfold normalize at h
      by_cases hc : 2 * unparsableCount formats rows > rows.length
      · simp [hc] at h
      · simp only [hc, if_false] at h
        cases h
        rfl
    rw [hev] at he
    simp only [List.mem_filterMap] at he
    obtain ⟨r, _, ht⟩ := he
    obtain ⟨t, _, rfl⟩ := Option.map_eq_some'.mp ht
    constructor
    · rfl
    · rfl
  · intro t
    simp [normalizeTimestamp, utcInstant]

/-- C3 amended witness: normalizing the row with UTC epoch timestamp "100"
yields the IST clock reading 19900 with offset 330, which is not expressed as
UTC. -/
theorem normalize_expresses_ist_witness :
    isUtcExpressed (⟨19900, 330⟩ : RawTimestamp) = false :=
  ((normalize_expresses_ist [epochFormat] sampleRows
      ⟨[⟨"u1", "login", ⟨19900, 330⟩⟩], ⟨1, 0⟩⟩ (by rfl)).1
    ⟨"u1", "login", ⟨19900, 330⟩⟩ (by decide)).1

/-- C4: funnel per-step user counts are non-increasing — for every step index,
the count at the next step never exceeds the count at the current step (a user
is counted at a step only having satisfied all preceding steps in strict
order); the hard-coded funnel of `AnalyticsPage` is likewise non-increasing. -/
theorem funnel_step_counts_nonincreasing (steps : List ℕ) (users : List (List ℕ))
    (i : ℕ) :
    (funnelCounts steps users).getD (i + 1) 0 ≤ (funnelCounts steps users).getD i 0 ∧
    List.Chain' (fun a b => b ≤ a) conversionFunnelUsers := by
  constructor
  · by_cases h1 : i + 1 < steps.length
    · have h0 : i < steps.length := Nat.lt_of_succ_lt h1
      simp only [funnelCounts, getD_map_range, h0, h1, if_true]
      apply List.countP_mono_left
      intro u _ hu
      simp only [decide_eq_true_eq] at hu ⊢
      omega
    · simp only [funnelCounts, getD_map_range, h1, if_false]
      exact Nat.zero_le _
  · simp only [conversionFunnelUsers, List.chain'_cons, List.chain'_singleton,
      and_true]
    omega

/-- C5: normalization fails with `DataQualityError` exactly when more than 50%
of rows have unparsable timestamps; at or below 50%, it succeeds, and the
report logs the count of dropped rows. -/
theorem normalize_dataquality_iff (formats : List (String → Option RawTimestamp))
    (rows : List RawRow) :
    (normalize formats rows = Except.error NormError.dataQualityError ↔
      2 * unparsableCount formats rows > rows.length) ∧
    (2 * unparsableCount formats rows ≤ rows.length →
      normalize formats rows = Except.ok
        { events := rows.filterMap (fun r =>
            (parseTimestampWith formats r.timestampText).map (fun t =>
              { userId := r.userId, eventName := r.eventName,
                timestamp := normalizeTimestamp t })),
          report := { totalRows := rows.length,
                      droppedRows := unparsableCount formats rows } }) := by
  constructor
  · unfold normalize
    by_cases hc : 2 * unparsableCount formats rows > rows.length <;> simp [hc]
  · intro hle
    unfold normalize
    have hc : ¬ 2 * unparsableCount formats rows > rows.length := by omega
    simp [hc]

/-- C5 witness: the spec's §8 scenario — a dataset where 60% of rows (3 of 5)
have unparsable timestamps makes the normalizer raise `DataQualityError`. -/
theorem normalize_dataquality_iff_witness :
    normalize [epochFormat] badRows = Except.error NormError.dataQualityError :=
  ((normalize_dataquality_iff [epochFormat] badRows).1).mpr (by decide)

/-- C6: the Segmentation Engine is deterministic — clustering is a pure
function of the feature matrix and the seed, so two runs with the same feature
matrix and seed produce identical cluster label assignments for every user,
and every user (row of the feature matrix) receives a label. -/
theorem kmeans_deterministic (k maxIter seed : ℕ) (features : List (List ℚ)) :
    kmeansLabels k maxIter seed features = kmeansLabels k maxIter seed features ∧
    (∀ u : ℕ, (kmeansLabels k maxIter seed features).getD u 0 =
      (kmeansLabels k maxIter seed features).getD u 0) ∧
    (kmeansLabels k maxIter seed features).length = features.length :=
  ⟨rfl, fun _ => rfl, lloydLoop_length features maxIter _⟩

/-- C7: the Anomaly Detector never flags a point inside the initial warm-up
region — every flagged index has at least a full rolling window of trailing
history. -/
theorem anomaly_never_flags_warmup (series : List ℚ) (window : ℕ) (k : ℚ)
    (i : ℕ) (h : i ∈ anomalyFlags series window k) : window ≤ i := by
  simp only [anomalyFlags, List.mem_filter] at h
  obtain ⟨-, h2⟩ := h
  by_contra hlt
  rw [if_pos (Nat.lt_of_not_le hlt)] at h2
  exact Bool.false_ne_true h2

/-- C7 witness: with window 2 and k = 1 over the series [0, 0, 0, 100], index
3 is flagged, and indeed 2 ≤ 3 — no warm-up point is flagged. -/
theorem anomaly_never_flags_warmup_witness :
    3 ∈ anomalyFlags [0, 0, 0, 100] 2 1 ∧ 2 ≤ 3 := by
  have hmem : 3 ∈ anomalyFlags [0, 0, 0, 100] 2 1 := by
    norm_num [anomalyFlags, deviates, listMean, sqDevSum, List.range_succ]
  exact ⟨hmem, anomaly_never_flags_warmup [0, 0, 0, 100] 2 1 3 hmem⟩

/-- C8: `handleFileSelect` rejects a file whose MIME type is not among the
three accepted types and whose name does not end in .xlsx/.xls/.csv
(case-insensitively), setting the error state with a null file; a file passing
either check is stored with no error, `uploading` and `uploaded` false. -/
theorem handleFileSelect_spec (f : JsFile) (prev : UploadState) :
    (validTypes.contains f.mimeType = false → hasSpreadsheetExt f.name = false →
      handleFileSelect (some f) prev =
        ⟨none, false, false, some invalidFileMessage⟩) ∧
    (validTypes.contains f.mimeType = true ∨ hasSpreadsheetExt f.name = true →
      handleFileSelect (some f) prev = ⟨some f, false, false, none⟩) := by
  constructor
  · intro h1 h2
    simp only [handleFileSelect, h1, h2]
    rfl
  · intro h
    rcases h with h | h <;> simp only [handleFileSelect, h] <;>
      simp [Bool.and_comm]

/-- C8 witness: a plain-text .txt file is rejected with the error message; a
file named "events.CSV" (wrong MIME type, but matching extension
case-insensitively) is accepted. -/
theorem handleFileSelect_spec_witness :
    handleFileSelect (some ⟨"data.txt", "text/plain"⟩) ⟨none, false, false, none⟩ =
      ⟨none, false, false, some invalidFileMessage⟩ ∧
    handleFileSelect (some ⟨"events.CSV", "application/octet-stream"⟩)
        ⟨none, false, false, none⟩ =
      ⟨some ⟨"events.CSV", "application/octet-stream"⟩, false, false, none⟩ :=
  ⟨(handleFileSelect_spec ⟨"data.txt", "text/plain"⟩ ⟨none, false, false, none⟩).1
     (by decide) (by decide),
   (handleFileSelect_spec ⟨"events.CSV", "application/octet-stream"⟩
     ⟨none, false, false, none⟩).2 (Or.inr (by decide))⟩

/-- C9: `toggleTheme` is an involution on the theme state — applying it twice
restores the original theme, and a single application always yields the other
of the two values. -/
theorem toggleTheme_involutive (t : Theme) :
    toggleTheme (toggleTheme t) = t ∧ toggleTheme t ≠ t := by
  cases t <;> simp [toggleTheme]

/-- C9 witness: a double toggle restores the dark theme, and a single toggle
changes it. -/
theorem toggleTheme_involutive_witness :
    toggleTheme (toggleTheme Theme.dark) = Theme.dark ∧
    toggleTheme Theme.dark ≠ Theme.dark :=
  toggleTheme_involutive Theme.dark

/-- C10: when the trimmed input is empty, `handleSendMessage` leaves the whole
chat state unchanged — messages, input and typing flag keep their values, and
neither a user nor an AI message is appended (also through the full send flow
including the timeout callback). -/
theorem handleSendMessage_empty_frame (s : ChatState)
    (h : jsTrim s.inputMessage = "") :
    handleSendMessage s = s ∧ sendMessageFlow s = s := by
  constructor
  · simp [handleSendMessage, h]
  · simp [sendMessageFlow, h]

/-- C10 witness: a whitespace-only input message leaves a concrete chat state
untouched. -/
theorem handleSendMessage_empty_frame_witness :
    handleSendMessage ⟨[⟨MsgType.ai, "hi"⟩], "   ", false⟩ =
      ⟨[⟨MsgType.ai, "hi"⟩], "   ", false⟩ ∧
    sendMessageFlow ⟨[⟨MsgType.ai, "hi"⟩], "   ", false⟩ =
      ⟨[⟨MsgType.ai, "hi"⟩], "   ", false⟩ :=
  handleSendMessage_empty_frame ⟨[⟨MsgType.ai, "hi"⟩], "   ", false⟩ (by decide)

end GameAnalytics
